import Mathlib

/-!
Verification of the gesture-control core of the Hand Gesture HCI system.

Shallow embedding of:
- `src/core/smooting.py` (class `Smoother`)
- `src/core/cursor_mapper.py` (class `CursorMapper`)
- `src/core/gesture_recognizer.py` (class `GestureRecognizer`)
- `src/app/settings_manager.py` (`load_settings` defaults)

Real-valued quantities (Python floats) are modelled as rationals; pixel
coordinates and landmark ids are integers, exactly as in the Python source.
Python exceptions are modelled with `Option`/`Except`; instance state is
passed explicitly, so every stateful method returns its result together
with the updated state.
-/

namespace HCI

/-- A landmark as produced by the hand tracker: an `(id, x, y)` triple of
integer pixel values (see `hand_tracker.detect` and the tests). -/
abbrev Landmark := ℤ × ℤ × ℤ

/-- A frame observation: the list of landmarks for one frame (possibly empty). -/
abbrev Frame := List Landmark

/-! ## `src/core/smooting.py` — class `Smoother` -/

/-- State of a `Smoother` instance: the smoothing factor `_alpha` and the
previous output `_prev_x` / `_prev_y`, each `None` until first use. -/
structure Smoother where
  alpha : ℚ
  prevX : Option ℚ
  prevY : Option ℚ
  deriving DecidableEq

/-- `Smoother.__init__`: raises `ValueError` unless `0.0 < alpha <= 1.0`;
otherwise stores `alpha` and sets both previous coordinates to `None`. -/
def Smoother.init (alpha : ℚ) : Except String Smoother :=
  if 0 < alpha ∧ alpha ≤ 1 then
    Except.ok { alpha := alpha, prevX := none, prevY := none }
  else
    Except.error "alpha must be in the range (0, 1]."

/-- `Smoother.reset`: sets `_prev_x` and `_prev_y` back to `None`. -/
def Smoother.reset (s : Smoother) : Smoother :=
  { s with prevX := none, prevY := none }

/-- `Smoother.smooth(target_x, target_y)`: on a first call (either previous
coordinate `None`) stores and returns the target unchanged; otherwise applies
the EMA update `new = prev + alpha * (target - prev)` per axis, stores the
result and returns it. Returns the emitted point with the updated state. -/
def Smoother.smooth (s : Smoother) (targetX targetY : ℚ) : (ℚ × ℚ) × Smoother :=
  match s.prevX, s.prevY with
  | some px, some py =>
      let newX := px + s.alpha * (targetX - px)
      let newY := py + s.alpha * (targetY - py)
      ((newX, newY), { s with prevX := some newX, prevY := some newY })
  | _, _ =>
      ((targetX, targetY), { s with prevX := some targetX, prevY := some targetY })

/-! ## `src/core/cursor_mapper.py` — class `CursorMapper` -/

/-- State of a `CursorMapper` instance: the screen size queried once from
`pyautogui.size()` at construction, and the optional attached `Smoother`. -/
structure CursorMapper where
  screenWidth : ℚ
  screenHeight : ℚ
  smoother : Option Smoother
  deriving DecidableEq

/-- `CursorMapper._map_to_screen`: normalizes the frame coordinates by the
frame dimensions and scales by the screen size. Python float division raises
`ZeroDivisionError` when a frame dimension is zero, modelled as `none`;
any nonzero (including negative) dimension divides without error. -/
def CursorMapper.mapToScreen (m : CursorMapper) (xFrame yFrame frameWidth frameHeight : ℚ) :
    Option (ℚ × ℚ) :=
  if frameWidth = 0 ∨ frameHeight = 0 then
    none
  else
    some (xFrame / frameWidth * m.screenWidth, yFrame / frameHeight * m.screenHeight)

/-- Observable outcome of one `CursorMapper.move_cursor` call: the list of
`pyautogui.moveTo` invocations it issued (the actuator side effect — the
Python method returns `None`) and the updated mapper state. -/
structure MoveOutcome where
  moveToCalls : List (ℚ × ℚ)
  mapper : CursorMapper
  deriving DecidableEq

/-- `CursorMapper.move_cursor`: maps frame coordinates to screen space
(propagating the `ZeroDivisionError` as `none`), passes the result through the
attached smoother when present, then calls `pyautogui.moveTo` on the outcome. -/
def CursorMapper.moveCursor (m : CursorMapper) (xFrame yFrame frameWidth frameHeight : ℚ) :
    Option MoveOutcome :=
  match m.mapToScreen xFrame yFrame frameWidth frameHeight with
  | none => none
  | some (screenX, screenY) =>
      match m.smoother with
      | none =>
          some { moveToCalls := [(screenX, screenY)], mapper := m }
      | some s =>
          let r := s.smooth screenX screenY
          some { moveToCalls := [r.fst], mapper := { m with smoother := some r.snd } }

/-! ## `src/core/gesture_recognizer.py` — class `GestureRecognizer` -/

/-- MediaPipe landmark index of the thumb tip (`self.THUMB_TIP`). -/
def THUMB_TIP : ℤ := 4

/-- MediaPipe landmark index of the index-finger tip (`self.INDEX_TIP`). -/
def INDEX_TIP : ℤ := 8

/-- State of a `GestureRecognizer` instance: `_pinch_threshold` and the
debounce flag `_pinch_active`. -/
structure GestureRecognizer where
  pinchThreshold : ℤ
  pinchActive : Bool
  deriving DecidableEq

/-- `GestureRecognizer.__init__(pinch_threshold)`: stores the threshold and
initializes `_pinch_active` to `False`. The constructor performs no range
validation on the threshold. -/
def GestureRecognizer.init (pinchThreshold : ℤ) : GestureRecognizer :=
  { pinchThreshold := pinchThreshold, pinchActive := false }

/-- `GestureRecognizer._get_point`: first landmark in the list whose id equals
`landmark_id`, as an `(x, y)` pair, or `None` when absent. -/
def getPoint : Frame → ℤ → Option (ℤ × ℤ)
  | [], _ => none
  | (lmId, x, y) :: rest, landmarkId =>
      if lmId = landmarkId then some (x, y) else getPoint rest landmarkId

/-- Squared Euclidean distance between two integer points. The Python source
computes `sqrt ((x2-x1)^2 + (y2-y1)^2)`; we keep the radicand, and compare
against the squared threshold (see `isPinch`). -/
def sqDist (p1 p2 : ℤ × ℤ) : ℤ :=
  (p2.fst - p1.fst) ^ 2 + (p2.snd - p1.snd) ^ 2

/-- `GestureRecognizer.is_pinch`: `False` on an empty landmark list or when
either tip landmark is missing; otherwise `True` iff the Euclidean distance
between the tips is at most `_pinch_threshold`. Over the reals,
`sqrt d ≤ t ↔ (0 ≤ t ∧ d ≤ t^2)` for `d ≥ 0`, which is how the comparison of
`_euclidean_distance` with the threshold is expressed on integers. -/
def isPinch (pinchThreshold : ℤ) : Frame → Bool
  | [] => false
  | lm :: rest =>
      match getPoint (lm :: rest) THUMB_TIP, getPoint (lm :: rest) INDEX_TIP with
      | some thumbTip, some indexTip =>
          decide (0 ≤ pinchThreshold ∧ sqDist thumbTip indexTip ≤ pinchThreshold ^ 2)
      | _, _ => false

/-- `GestureRecognizer.reset_state`: sets `_pinch_active` to `False`. -/
def GestureRecognizer.resetState (g : GestureRecognizer) : GestureRecognizer :=
  { g with pinchActive := false }

/-- `GestureRecognizer.detect_click_event`: on an empty landmark list, calls
`reset_state` and returns `False`; otherwise reports a click exactly when the
pinch is active this frame and `_pinch_active` was `False` (pinch start), and
stores the current pinch state for the next frame. -/
def detectClickEvent (g : GestureRecognizer) : Frame → Bool × GestureRecognizer
  | [] => (false, g.resetState)
  | lm :: rest =>
      let currentPinch := isPinch g.pinchThreshold (lm :: rest)
      (currentPinch && !g.pinchActive, { g with pinchActive := currentPinch })

/-- Result of feeding a list of frames, one per call, to
`detect_click_event` on a single recognizer instance: the list of returned
booleans, in order. -/
def runSeq (g : GestureRecognizer) : List Frame → List Bool
  | [] => []
  | f :: fs =>
      let r := detectClickEvent g f
      r.fst :: runSeq r.snd fs

/-! ## `src/app/settings_manager.py` — `load_settings` defaults -/

/-- The default settings dictionary returned by `load_settings` when
`settings.json` does not exist. -/
structure Settings where
  pinch_threshold : ℤ
  click_hold_frames : ℕ
  drag_hold_frames : ℕ
  smoothing_factor : ℚ
  enable_clicks : Bool
  deriving DecidableEq

/-- `load_settings` fallback values (the file-present branch is I/O and is
not modelled). -/
def defaultSettings : Settings :=
  { pinch_threshold := 40
    click_hold_frames := 3
    drag_hold_frames := 8
    smoothing_factor := 12
    enable_clicks := true }

/-! ## Drag portion of the gesture state machine (modelled from the spec)

`update_drag_state` and `is_dragging` do not appear in any source file:
`src/app/main.py` calls `gesture_recognizer.is_dragging()` and
`src/app/settings_manager.py` supplies a `drag_hold_frames` default, but the
class in `src/core/gesture_recognizer.py` defines neither, so the drag
bookkeeping is modelled from spec §4.3. -/

/-- Modelled from the spec: the drag-related gesture state of §4.3, missing
from `src/core/gesture_recognizer.py` — `pinch_hold_frames` (a non-negative
frame counter) and the level-triggered `dragging` latch, with the configured
`DRAG_HOLD_FRAMES` (default 8 via `load_settings`). -/
structure DragRecognizer where
  dragHoldFrames : ℕ
  pinchHoldFrames : ℕ
  dragging : Bool
  deriving DecidableEq

/-- Modelled from the spec: `update_drag_state(frame)`, missing from
`src/core/gesture_recognizer.py` (only called through `is_dragging` in
`src/app/main.py`). Per §4.3: when the frame's pinch is inactive or the hand
is absent, reset the counter and the latch; when pinch is active, increment
`pinch_hold_frames` by 1, saturating at what drag needs, and set
`dragging` once the counter reaches `DRAG_HOLD_FRAMES`. -/
def updateDragState (pinchThreshold : ℤ) (d : DragRecognizer) (frame : Frame) :
    DragRecognizer :=
  if isPinch pinchThreshold frame then
    let counter := min (d.pinchHoldFrames + 1) d.dragHoldFrames
    { d with
      pinchHoldFrames := counter
      dragging := d.dragging || decide (d.dragHoldFrames ≤ counter) }
  else
    { d with pinchHoldFrames := 0, dragging := false }

/-- Modelled from the spec: `is_dragging()`, missing from
`src/core/gesture_recognizer.py` — returns the current latched drag state. -/
def isDragging (d : DragRecognizer) : Bool :=
  d.dragging

/-- `update_drag_state` applied on `k` consecutive frames equal to `frame`
(continuous pinch when `frame` is pinch-active), starting from state `d`. -/
def iterateDrag (pinchThreshold : ℤ) (frame : Frame) (d : DragRecognizer) : ℕ → DragRecognizer
  | 0 => d
  | k + 1 => updateDragState pinchThreshold (iterateDrag pinchThreshold frame d k) frame

/-- The pinch landmark pair of `test_gesture_recognizer.py`: thumb tip at
`(100, 100)`, index tip at `(120, 110)` — distance `sqrt 500 ≈ 22.4`. -/
def pinchFrame : Frame := [(4, 100, 100), (8, 120, 110)]

/-- The non-pinch landmark pair of `test_gesture_recognizer.py`: thumb tip at
`(100, 100)`, index tip at `(250, 250)` — distance well above threshold. -/
def noPinchFrame : Frame := [(4, 100, 100), (8, 250, 250)]

/-! ## Theorems -/

theorem isPinch_nil (t : ℤ) : isPinch t [] = false := rfl

/-- `detect_click_event` reports no click on any frame whose pinch signal is
inactive (including the empty frame). -/
theorem detect_fst_false_of_not_pinch (g : GestureRecognizer) (f : Frame)
    (h : isPinch g.pinchThreshold f = false) :
    (detectClickEvent g f).fst = false := by
  cases f with
  | nil => rfl
  | cons lm rest => simp [detectClickEvent, h]

/-- While the `_pinch_active` latch is set, a run of pinch-active frames
produces no click events and keeps the latch set. -/
theorem runSeq_latched_all_false (t : ℤ) (fs : List Frame)
    (h : ∀ f ∈ fs, isPinch t f = true) :
    runSeq { pinchThreshold := t, pinchActive := true } fs
      = List.replicate fs.length false := by
  induction fs with
  | nil => rfl
  | cons f fs ih =>
    have hf := h f (by simp)
    cases f with
    | nil => simp [isPinch_nil] at hf
    | cons lm rest =>
      simp only [runSeq, detectClickEvent, hf, List.length_cons, List.replicate_succ]
      simp only [Bool.not_true, Bool.and_false, List.cons.injEq, true_and]
      exact ih fun g hg => h g (by simp [hg])

/-- From an unlatched state, a nonempty run of pinch-active frames produces a
click on its first frame and on no other frame. -/
theorem runSeq_episode_first_frame (t : ℤ) (f : Frame) (fs : List Frame)
    (hf : isPinch t f = true) (hfs : ∀ g ∈ fs, isPinch t g = true) :
    runSeq { pinchThreshold := t, pinchActive := false } (f :: fs)
      = true :: List.replicate fs.length false := by
  cases f with
  | nil => simp [isPinch_nil] at hf
  | cons lm rest =>
    simp only [runSeq, detectClickEvent, hf, Bool.not_false, Bool.and_true,
      List.cons.injEq, true_and]
    exact runSeq_latched_all_false t fs hfs

/-- Counterexample to claim C1: `detect_click_event` keeps no hold counter —
with the `load_settings` defaults (`pinch_threshold = 40`,
`click_hold_frames = 3`), a pinch held for exactly 3 frames yields
`[true, false, false]`: the click fires on the first frame of the episode,
not on the third as the claim requires (`[false, false, true]`). -/
theorem click_fires_first_not_third :
    runSeq { pinchThreshold := defaultSettings.pinch_threshold, pinchActive := false }
        (List.replicate defaultSettings.click_hold_frames pinchFrame)
      = [true, false, false]
    ∧ ([true, false, false] : List Bool) ≠ [false, false, true] := by
  exact ⟨by decide, by decide⟩

/-- Claim C1 as amended: `detect_click_event` has no per-episode hold counter
and never consults `CLICK_HOLD_FRAMES`; for every pinch episode (a run of
pinch-active frames entered with the `_pinch_active` latch clear) it returns
true exactly on the episode's first frame — the pinch-start transition — and
false on every later frame of the episode. -/
theorem click_fires_on_episode_start (t : ℤ) (f : Frame) (fs : List Frame)
    (hf : isPinch t f = true) (hfs : ∀ g ∈ fs, isPinch t g = true) :
    runSeq { pinchThreshold := t, pinchActive := false } (f :: fs)
      = true :: List.replicate fs.length false :=
  runSeq_episode_first_frame t f fs hf hfs

/-- Witness for `click_fires_on_episode_start`: threshold 50, the tests'
pinch pair held for 3 frames. -/
theorem click_fires_on_episode_start_witness :
    runSeq { pinchThreshold := 50, pinchActive := false }
        [pinchFrame, pinchFrame, pinchFrame]
      = true :: List.replicate 2 false :=
  click_fires_on_episode_start 50 pinchFrame [pinchFrame, pinchFrame]
    (by decide) (by decide)

/-- Claim C3: single shot per episode and episode independence — on any run
of pinch-active frames from any starting state, `detect_click_event` returns
true at most once; on any frame whose pinch signal is inactive (which
includes every frame outside an episode) it returns false; and the tests'
sequence no-pinch, pinch, pinch, no-pinch, pinch yields
`[false, true, false, false, true]` — one click per episode. -/
theorem click_single_shot_per_episode :
    (∀ (t : ℤ) (b : Bool) (frames : List Frame),
        (∀ f ∈ frames, isPinch t f = true) →
        (runSeq { pinchThreshold := t, pinchActive := b } frames).count true ≤ 1)
    ∧ (∀ (t : ℤ) (b : Bool) (f : Frame),
        isPinch t f = false →
        (detectClickEvent { pinchThreshold := t, pinchActive := b } f).fst = false)
    ∧ runSeq { pinchThreshold := 50, pinchActive := false }
        [noPinchFrame, pinchFrame, pinchFrame, noPinchFrame, pinchFrame]
      = [false, true, false, false, true] := by
  refine ⟨fun t b frames h => ?_, fun t b f h => detect_fst_false_of_not_pinch _ f h, by decide⟩
  cases b with
  | true => simp [runSeq_latched_all_false t frames h, List.count_replicate]
  | false =>
    cases frames with
    | nil => simp [runSeq]
    | cons f fs =>
      rw [runSeq_episode_first_frame t f fs (h f (by simp)) fun g hg => h g (by simp [hg])]
      simp [List.count_cons, List.count_replicate]

/-- Witness for `click_single_shot_per_episode` at threshold 50 with the
tests' landmark pairs. -/
theorem click_single_shot_per_episode_witness :
    (runSeq { pinchThreshold := 50, pinchActive := false }
        [pinchFrame, pinchFrame]).count true ≤ 1
    ∧ (detectClickEvent { pinchThreshold := 50, pinchActive := true } noPinchFrame).fst = false
    ∧ runSeq { pinchThreshold := 50, pinchActive := false }
        [noPinchFrame, pinchFrame, pinchFrame, noPinchFrame, pinchFrame]
      = [false, true, false, false, true] :=
  ⟨click_single_shot_per_episode.1 50 false [pinchFrame, pinchFrame] (by decide),
   click_single_shot_per_episode.2.1 50 true noPinchFrame (by decide),
   click_single_shot_per_episode.2.2⟩

/-- A landmark list lacking either tip gives an inactive pinch signal. -/
theorem isPinch_missing_tip (t : ℤ) (lms : Frame)
    (h : getPoint lms THUMB_TIP = none ∨ getPoint lms INDEX_TIP = none) :
    isPinch t lms = false := by
  cases lms with
  | nil => rfl
  | cons lm rest =>
    rcases h with h | h
    · simp [isPinch, h]
    · cases hT : getPoint (lm :: rest) THUMB_TIP <;> simp [isPinch, hT, h]

/-- Claim C4: hand-absent handling — a landmark list missing the thumb tip
(id 4) or the index tip (id 8) is treated exactly like the empty list by
`is_pinch` and `detect_click_event` (same return value, same resulting
state), and `detect_click_event` on the empty list returns false and resets
the gesture state (`_pinch_active`) to its initial false value regardless of
the prior state. -/
theorem missing_tip_like_empty (t : ℤ) (b : Bool) (lms : Frame)
    (h : getPoint lms THUMB_TIP = none ∨ getPoint lms INDEX_TIP = none) :
    isPinch t lms = isPinch t []
    ∧ detectClickEvent { pinchThreshold := t, pinchActive := b } lms
      = detectClickEvent { pinchThreshold := t, pinchActive := b } []
    ∧ detectClickEvent { pinchThreshold := t, pinchActive := b } []
      = (false, { pinchThreshold := t, pinchActive := false }) := by
  have hp := isPinch_missing_tip t lms h
  refine ⟨by rw [hp, isPinch_nil], ?_, rfl⟩
  cases lms with
  | nil => rfl
  | cons lm rest =>
    simp [detectClickEvent, hp, GestureRecognizer.resetState]

/-- Witness for `missing_tip_like_empty`: a frame holding only the thumb tip,
threshold 40, latch previously set. -/
theorem missing_tip_like_empty_witness :
    isPinch 40 [(4, 1, 2)] = isPinch 40 []
    ∧ detectClickEvent { pinchThreshold := 40, pinchActive := true } [(4, 1, 2)]
      = detectClickEvent { pinchThreshold := 40, pinchActive := true } []
    ∧ detectClickEvent { pinchThreshold := 40, pinchActive := true } []
      = (false, { pinchThreshold := 40, pinchActive := false }) :=
  missing_tip_like_empty 40 true [(4, 1, 2)] (Or.inr (by decide))

/-- Claim C10: no back-to-back clicks — on one recognizer instance, whenever
a `detect_click_event` call returns true, the immediately following call
returns false whatever its input: a true return stores `_pinch_active = true`,
and the next call either sees an empty frame (returns false) or requires the
latch to be clear to report a click. -/
theorem no_back_to_back_clicks (t : ℤ) (b : Bool) (l1 l2 : Frame)
    (h : (detectClickEvent { pinchThreshold := t, pinchActive := b } l1).fst = true) :
    (detectClickEvent
        (detectClickEvent { pinchThreshold := t, pinchActive := b } l1).snd l2).fst
      = false := by
  cases l1 with
  | nil => simp [detectClickEvent] at h
  | cons lm rest =>
    simp only [detectClickEvent, Bool.and_eq_true, Bool.not_eq_eq_eq_not, Bool.not_true] at h
    obtain ⟨hp, -⟩ := h
    cases l2 with
    | nil => simp [detectClickEvent, hp]
    | cons lm2 rest2 => simp [detectClickEvent, hp]

/-- Witness for `no_back_to_back_clicks`: two consecutive pinch frames at
threshold 50 — the first call clicks, the second does not. -/
theorem no_back_to_back_clicks_witness :
    (detectClickEvent
        (detectClickEvent { pinchThreshold := 50, pinchActive := false } pinchFrame).snd
        pinchFrame).fst = false :=
  no_back_to_back_clicks 50 false pinchFrame pinchFrame (by decide)

/-- Invariant of the spec-modelled drag bookkeeping under continuous pinch:
after `k` frames the configured threshold is untouched, the hold counter is
`min k D` (saturating), and the drag latch is set exactly when `k ≥ D`. -/
theorem iterateDrag_spec (t : ℤ) (D : ℕ) (f : Frame) (hD : 0 < D)
    (hf : isPinch t f = true) :
    ∀ k,
      (iterateDrag t f { dragHoldFrames := D, pinchHoldFrames := 0, dragging := false } k).dragHoldFrames = D
      ∧ (iterateDrag t f { dragHoldFrames := D, pinchHoldFrames := 0, dragging := false } k).pinchHoldFrames = min k D
      ∧ (iterateDrag t f { dragHoldFrames := D, pinchHoldFrames := 0, dragging := false } k).dragging = decide (D ≤ k) := by
  intro k
  induction k with
  | zero =>
    refine ⟨rfl, by simp [iterateDrag], ?_⟩
    have hne : ¬ (D ≤ 0) := by omega
    simp [iterateDrag, hne]
  | succ k ih =>
    obtain ⟨ihD, ihC, ihG⟩ := ih
    have h3 : (D ≤ min (min k D + 1) D) ↔ (D ≤ k + 1) := by omega
    refine ⟨by simp [iterateDrag, updateDragState, hf, ihD], ?_, ?_⟩
    · simp only [iterateDrag, updateDragState, hf, if_true, ihD, ihC]
      omega
    · simp only [iterateDrag, updateDragState, hf, if_true, ihD, ihC, ihG, h3]
      by_cases hk : D ≤ k <;> by_cases hk1 : D ≤ k + 1 <;> simp [hk, hk1] <;> omega

/-- Claim C2 (drag portion modelled from the spec, being absent from
`src/core/gesture_recognizer.py`): given continuous pinch from the zero
state, `is_dragging` is false on every frame while the hold counter is below
`DRAG_HOLD_FRAMES` and true exactly at and on every frame after the counter
reaches it — after `k` per-frame `update_drag_state` calls the counter is
`min k DRAG_HOLD_FRAMES` and the latch equals `DRAG_HOLD_FRAMES ≤ k`. -/
theorem drag_engagement (t : ℤ) (D : ℕ) (f : Frame) (k : ℕ) (hD : 0 < D)
    (hf : isPinch t f = true) :
    isDragging (iterateDrag t f { dragHoldFrames := D, pinchHoldFrames := 0, dragging := false } k)
      = decide (D ≤ k)
    ∧ (iterateDrag t f { dragHoldFrames := D, pinchHoldFrames := 0, dragging := false } k).pinchHoldFrames
      = min k D := by
  obtain ⟨-, hC, hG⟩ := iterateDrag_spec t D f hD hf k
  exact ⟨hG, hC⟩

/-- Witness for `drag_engagement`: default settings (`pinch_threshold = 40`,
`drag_hold_frames = 8`), the tests' pinch pair held for 10 frames — dragging
is engaged and the counter saturates at 8. -/
theorem drag_engagement_witness :
    isDragging (iterateDrag 40 pinchFrame
        { dragHoldFrames := 8, pinchHoldFrames := 0, dragging := false } 10)
      = decide ((8 : ℕ) ≤ 10)
    ∧ (iterateDrag 40 pinchFrame
        { dragHoldFrames := 8, pinchHoldFrames := 0, dragging := false } 10).pinchHoldFrames
      = min 10 8 :=
  drag_engagement 40 8 pinchFrame 10 (by decide) (by decide)

/-- Claim C9: Smoother contract — the first `smooth` call after construction
or after `reset` returns the target unchanged and stores it; every subsequent
call returns and stores `prev + alpha * (target - prev)` per axis; `reset`
clears the state so the next call behaves as a first call. -/
theorem smoother_contract (a targetX targetY px py : ℚ) :
    Smoother.smooth { alpha := a, prevX := none, prevY := none } targetX targetY
      = ((targetX, targetY), { alpha := a, prevX := some targetX, prevY := some targetY })
    ∧ Smoother.smooth { alpha := a, prevX := some px, prevY := some py } targetX targetY
      = ((px + a * (targetX - px), py + a * (targetY - py)),
          { alpha := a, prevX := some (px + a * (targetX - px)),
            prevY := some (py + a * (targetY - py)) })
    ∧ Smoother.reset { alpha := a, prevX := some px, prevY := some py }
      = { alpha := a, prevX := none, prevY := none }
    ∧ Smoother.smooth
        (Smoother.reset { alpha := a, prevX := some px, prevY := some py }) targetX targetY
      = ((targetX, targetY), { alpha := a, prevX := some targetX, prevY := some targetY }) :=
  ⟨rfl, rfl, rfl, rfl⟩

/-- Counterexample to claim C6: `GestureRecognizer.__init__` performs no
validation, so construction with a zero pinch threshold succeeds (no
`InvalidParameter` error is possible: the constructor only assigns fields)
and the resulting instance operates normally at runtime. -/
theorem recognizer_init_zero_threshold_succeeds :
    GestureRecognizer.init 0 = { pinchThreshold := 0, pinchActive := false }
    ∧ detectClickEvent (GestureRecognizer.init 0) [(4, 5, 5), (8, 5, 5)]
      = (true, { pinchThreshold := 0, pinchActive := true }) := by
  exact ⟨rfl, by decide⟩

/-- Claim C6 as amended: constructing a `Smoother` with `alpha` outside
`(0, 1]` fails at construction (Python raises `ValueError`), and in-range
`alpha` constructs successfully; the `GestureRecognizer` constructor performs
no threshold validation — any threshold, including zero or negative, is
accepted without error. -/
theorem construction_validation (a : ℚ) (t : ℤ) :
    (Smoother.init a = Except.ok { alpha := a, prevX := none, prevY := none }
      ↔ 0 < a ∧ a ≤ 1)
    ∧ (¬(0 < a ∧ a ≤ 1) →
        Smoother.init a = Except.error "alpha must be in the range (0, 1].")
    ∧ GestureRecognizer.init t = { pinchThreshold := t, pinchActive := false } := by
  by_cases h : 0 < a ∧ a ≤ 1 <;> simp [Smoother.init, h, GestureRecognizer.init]

/-- Witness for `construction_validation` at `alpha = 2`, `threshold = -5`. -/
theorem construction_validation_witness :
    Smoother.init 2 = Except.error "alpha must be in the range (0, 1]."
    ∧ GestureRecognizer.init (-5) = { pinchThreshold := -5, pinchActive := false } :=
  ⟨(construction_validation 2 (-5)).2.1 (by norm_num),
   (construction_validation 2 (-5)).2.2⟩

/-- Counterexample to claim C5: negative frame dimensions do not fail —
`move_cursor` with `frame_width = -640` completes the call (Python float
division by a negative number raises nothing) and issues a pointer move to an
off-screen coordinate, so the stated "fails iff zero or negative" is false. -/
theorem mapper_negative_dims_no_error :
    CursorMapper.moveCursor
        { screenWidth := 1920, screenHeight := 1080, smoother := none } 10 10 (-640) 480
      = some { moveToCalls := [(-30, 45/2)],
               mapper := { screenWidth := 1920, screenHeight := 1080, smoother := none } } := by
  norm_num [CursorMapper.moveCursor, CursorMapper.mapToScreen]

/-- Claim C5 as amended: `move_cursor` fails (Python `ZeroDivisionError`; the
source defines no `InvalidFrameGeometry`) iff `frame_width` or `frame_height`
is zero — negative dimensions are accepted and mapped without error — and the
failure is local to the call: the failing call mutates nothing, and the same
mapper succeeds on any subsequent call with nonzero dimensions. -/
theorem mapper_zero_dim_error (m : CursorMapper) (x y fw fh x' y' fw' fh' : ℚ) :
    (m.moveCursor x y fw fh = none ↔ fw = 0 ∨ fh = 0)
    ∧ (fw' ≠ 0 → fh' ≠ 0 → (m.moveCursor x' y' fw' fh').isSome = true) := by
  constructor
  · by_cases h : fw = 0 ∨ fh = 0
    · simp [CursorMapper.moveCursor, CursorMapper.mapToScreen, h]
    · cases hm : m.smoother <;>
        simp_all [CursorMapper.moveCursor, CursorMapper.mapToScreen]
  · intro hfw hfh
    cases hm : m.smoother <;>
      simp_all [CursorMapper.moveCursor, CursorMapper.mapToScreen]

/-- Witness for `mapper_zero_dim_error`: a zero-width call fails, and the same
mapper succeeds afterwards on a 640×480 frame. -/
theorem mapper_zero_dim_error_witness :
    (CursorMapper.moveCursor
        { screenWidth := 1920, screenHeight := 1080, smoother := none } 10 10 0 480 = none)
    ∧ (CursorMapper.moveCursor
        { screenWidth := 1920, screenHeight := 1080, smoother := none } 10 10 640 480).isSome
      = true :=
  ⟨(mapper_zero_dim_error
      { screenWidth := 1920, screenHeight := 1080, smoother := none }
      10 10 0 480 10 10 640 480).1.mpr (Or.inl rfl),
   (mapper_zero_dim_error
      { screenWidth := 1920, screenHeight := 1080, smoother := none }
      10 10 0 480 10 10 640 480).2 (by norm_num) (by norm_num)⟩

/-- Counterexample to claim C7: `move_cursor` does move the pointer itself —
on a valid frame it calls `pyautogui.moveTo` with the mapped coordinates (its
recorded actuator-call list is nonempty), and the Python method returns
`None`, not the mapped `Point2D`. -/
theorem move_cursor_moves_pointer_itself :
    (CursorMapper.moveCursor
        { screenWidth := 1920, screenHeight := 1080, smoother := none } 0 0 640 480).map
        MoveOutcome.moveToCalls = some [(0, 0)]
    ∧ some [((0 : ℚ), (0 : ℚ))] ≠ some ([] : List (ℚ × ℚ)) := by
  exact ⟨by norm_num [CursorMapper.moveCursor, CursorMapper.mapToScreen], by simp⟩

/-- Claim C7 as amended: on every successful call, `move_cursor` computes the
mapped (and, when a smoother is attached, smoothed) screen point, issues
exactly one `pyautogui.moveTo` pointer move with it, and mutates no mapper
state other than the attached smoother (screen size and smoother presence
are unchanged); it returns `None` rather than the point. -/
theorem move_cursor_effects (m : CursorMapper) (x y fw fh : ℚ) (o : MoveOutcome)
    (h : m.moveCursor x y fw fh = some o) :
    o.moveToCalls.length = 1
    ∧ o.mapper.screenWidth = m.screenWidth
    ∧ o.mapper.screenHeight = m.screenHeight
    ∧ o.mapper.smoother.isSome = m.smoother.isSome
    ∧ (m.smoother = none → o.mapper = m) := by
  by_cases hd : fw = 0 ∨ fh = 0
  · simp [CursorMapper.moveCursor, CursorMapper.mapToScreen, hd] at h
  · cases hm : m.smoother <;>
      · simp [CursorMapper.moveCursor, CursorMapper.mapToScreen, hd, hm] at h
        subst h
        simp [hm]

/-- Witness for `move_cursor_effects` on a 640×480 frame with no smoother. -/
theorem move_cursor_effects_witness :
    ([((0 : ℚ), (0 : ℚ))] : List (ℚ × ℚ)).length = 1
    ∧ (1920 : ℚ) = 1920 ∧ (1080 : ℚ) = 1080
    ∧ (none : Option Smoother).isSome = (none : Option Smoother).isSome
    ∧ ((none : Option Smoother) = none →
        ({ moveToCalls := [(0, 0)],
           mapper := { screenWidth := 1920, screenHeight := 1080,
                       smoother := none } } : MoveOutcome).mapper
          = { screenWidth := 1920, screenHeight := 1080, smoother := none }) :=
  move_cursor_effects
    { screenWidth := 1920, screenHeight := 1080, smoother := none } 0 0 640 480
    { moveToCalls := [(0, 0)],
      mapper := { screenWidth := 1920, screenHeight := 1080, smoother := none } }
    (by norm_num [CursorMapper.moveCursor, CursorMapper.mapToScreen])

/-- Claim C8: Mapper linearity with positive frame dimensions and no
effective smoothing (no smoother attached): frame `(0,0)` maps exactly to
screen `(0,0)`, `(frame_width, frame_height)` maps exactly to
`(screen_width, screen_height)`, and the frame center maps exactly to the
screen center — exact equality, hence within the claim's 1-unit tolerance. -/
theorem mapper_linearity (sw sh fw fh : ℚ) (hfw : 0 < fw) (hfh : 0 < fh) :
    (CursorMapper.moveCursor { screenWidth := sw, screenHeight := sh, smoother := none }
        0 0 fw fh).map MoveOutcome.moveToCalls = some [(0, 0)]
    ∧ (CursorMapper.moveCursor { screenWidth := sw, screenHeight := sh, smoother := none }
        fw fh fw fh).map MoveOutcome.moveToCalls = some [(sw, sh)]
    ∧ (CursorMapper.moveCursor { screenWidth := sw, screenHeight := sh, smoother := none }
        (fw / 2) (fh / 2) fw fh).map MoveOutcome.moveToCalls = some [(sw / 2, sh / 2)] := by
  have hfw' : fw ≠ 0 := ne_of_gt hfw
  have hfh' : fh ≠ 0 := ne_of_gt hfh
  refine ⟨?_, ?_, ?_⟩ <;>
    simp [CursorMapper.moveCursor, CursorMapper.mapToScreen, hfw', hfh'] <;>
    constructor <;> field_simp <;> ring

/-- Witness for `mapper_linearity`: frame 640×480, screen 1920×1080 — in
particular the center `(320, 240)` maps to `(960, 540)`. -/
theorem mapper_linearity_witness :
    (CursorMapper.moveCursor { screenWidth := 1920, screenHeight := 1080, smoother := none }
        0 0 640 480).map MoveOutcome.moveToCalls = some [(0, 0)]
    ∧ (CursorMapper.moveCursor { screenWidth := 1920, screenHeight := 1080, smoother := none }
        640 480 640 480).map MoveOutcome.moveToCalls = some [(1920, 1080)]
    ∧ (CursorMapper.moveCursor { screenWidth := 1920, screenHeight := 1080, smoother := none }
        (640 / 2) (480 / 2) 640 480).map MoveOutcome.moveToCalls
      = some [(1920 / 2, 1080 / 2)] :=
  mapper_linearity 1920 1080 640 480 (by norm_num) (by norm_num)

end HCI
